import Mathlib

/-
  Verification of the MapFrontier territorial-conflict core.

  Shallow embedding of the War / BorderPush state machines, the resource
  ledger (Player.consumeResources, Country.consumeResources), the game
  routes (declare-war, end-war, border-push) and the periodic conflict
  tick (startPeriodicUpdates), translated from the JavaScript source.

  Conventions of the embedding:
  * JavaScript floats are modelled as real numbers (ℝ); `Math.sqrt` is
    `Real.sqrt`, `Math.PI` is `Real.pi`, `Math.max/Math.min` are `max/min`.
  * Timestamps (`Date.getTime()`) are real numbers counting milliseconds;
    the code divides by 1000 where it wants seconds, and so do we.
    All `new Date()` calls inside one handler are modelled by a single
    `now` parameter.
  * Database rows are Lean structures; row ids are `Nat`; the tables are
    Lean lists inside a `GameState` record.  Fields that no claim touches
    (geometry columns, duration counters, usernames, chat, history rows)
    are omitted.
  * Sequelize hooks are folded into the operations that trigger them:
    an individual `save()` runs the model's `beforeUpdate` hook (for
    BorderPush: refresh `last_update`, and set `ended_at` when `status`
    leaves `active`), while the static bulk `Model.update(values, where)`
    runs no per-row hooks and writes exactly the given columns.
  * A method that `throw`s for expected conditions returns `Option`
    (`none` = throw); route handlers return an explicit result code
    together with the (possibly unchanged) state.
-/

/-- Status of a BorderPush: `ENUM('active', 'successful', 'failed', 'cancelled')`. -/
inductive PushStatus
  | active
  | successful
  | failed
  | cancelled
deriving DecidableEq, BEq

/-- Status of a War: `ENUM('active', 'ended', 'ceasefire')` (model part_002). -/
inductive WarStatus
  | active
  | ended
  | ceasefire
deriving DecidableEq, BEq

/-- Ledger-relevant fields of a Player row (model part_003). -/
structure Player where
  id : Nat
  country_id : Option Nat
  resources : Int
deriving DecidableEq

/-- Conflict-relevant fields of a Country row (backend/models/Country.js). -/
structure Country where
  id : Nat
  is_claimed : Bool
  owner_id : Option Nat
  resources : Int
  is_at_war : Bool
  active_wars : Int
  territory_gained : ℝ
  territory_lost : ℝ

/-- Conflict-relevant fields of a War row (model part_002). -/
structure War where
  id : Nat
  aggressor_country_id : Nat
  defender_country_id : Nat
  declared_by : Nat
  status : WarStatus
  declared_at : ℝ
  ended_at : Option ℝ
  ended_by : Option Nat
  winner_country_id : Option Nat

/-- Conflict-relevant fields of a BorderPush row (model part_001).
`started_at`, `last_update` are in milliseconds; `distance_pushed` in
meters; `territory_gained` in km². -/
structure BorderPush where
  id : Nat
  war_id : Nat
  player_id : Nat
  source_country_id : Nat
  target_country_id : Nat
  status : PushStatus
  push_strength : ℝ
  resistance_strength : ℝ
  terrain_modifier : ℝ
  distance_pushed : ℝ
  territory_gained : ℝ
  supporting_soldiers : Nat
  defending_soldiers : Nat
  push_speed : ℝ
  started_at : ℝ
  last_update : ℝ
  ended_at : Option ℝ

/-- Result object of `BorderPush.prototype.calculateCurrentProgress`:
`{ distance, territory, isActive }`. -/
structure ProgressInfo where
  distance : ℝ
  territory : ℝ
  isActive : Bool

/-- The authoritative tables the conflict core operates on. -/
structure GameState where
  players : List Player
  countries : List Country
  wars : List War
  pushes : List BorderPush

/-- Speed clamp used by every speed-writing path:
`Math.max(0.1, Math.min(5.0, speed))`. -/
noncomputable def clampSpeed (x : ℝ) : ℝ := max 0.1 (min 5.0 x)

/-- Push-speed computation, textually repeated in the `beforeCreate` hook,
`addSupportingSoldier` and `addDefendingSoldier`:
`baseSpeed * (push_strength / resistance_strength) * (1 / terrain_modifier)`
with `baseSpeed = 1.0`, then clamped to [0.1, 5.0]. -/
noncomputable def computePushSpeed (strength resistance terrain : ℝ) : ℝ :=
  clampSpeed (1.0 * (strength / resistance) * (1 / terrain))

namespace BorderPush

/-- The `beforeCreate` hook of the BorderPush model: derives the initial
`push_speed` from strength, resistance and terrain and clamps it. -/
noncomputable def beforeCreate (p : BorderPush) : BorderPush :=
  { p with push_speed :=
      computePushSpeed p.push_strength p.resistance_strength p.terrain_modifier }

/-- `BorderPush.prototype.calculateCurrentProgress(now)`: for a non-active
push returns the stored `distance_pushed`/`territory_gained`; for an active
push extrapolates `distance_pushed + push_speed * elapsedSeconds` with
`elapsedSeconds = (now - last_update) / 1000`, while `territory` is always
the stored `territory_gained`.  The method body contains no assignment. -/
noncomputable def calculateCurrentProgress (p : BorderPush) (now : ℝ) : ProgressInfo :=
  if p.status ≠ PushStatus.active then
    { distance := p.distance_pushed, territory := p.territory_gained, isActive := false }
  else
    let elapsedSeconds : ℝ := (now - p.last_update) / 1000
    let additionalDistance : ℝ := p.push_speed * elapsedSeconds
    { distance := p.distance_pushed + additionalDistance
    , territory := p.territory_gained
    , isActive := true }

/-- `calculateCurrentProgress` viewed as a state transformer: the method
performs no write to `this`, so the state component of the result is the
input row unchanged. -/
noncomputable def calculateCurrentProgressRun (p : BorderPush) (now : ℝ) :
    ProgressInfo × BorderPush :=
  (calculateCurrentProgress p now, p)

/-- `BorderPush.prototype.updateProgress(now)`: a no-op on a non-active
push; otherwise commits the candidate distance, refreshes `last_update`
and recomputes `territory_gained = Math.PI * radiusKm * radiusKm` with
`radiusKm = distance_pushed / 1000` (the `save()` call's `beforeUpdate`
hook re-assigns `last_update = now`, which coincides). -/
noncomputable def updateProgress (p : BorderPush) (now : ℝ) : BorderPush :=
  if p.status ≠ PushStatus.active then p
  else
    let progress := calculateCurrentProgress p now
    let radiusKm : ℝ := progress.distance / 1000
    { p with distance_pushed := progress.distance
           , last_update := now
           , territory_gained := Real.pi * radiusKm * radiusKm }

/-- `BorderPush.prototype.addSupportingSoldier`: increments
`supporting_soldiers`, recomputes `push_strength = 1.0 * Math.sqrt
(supporting_soldiers)` and the clamped `push_speed`; its `save()` runs the
`beforeUpdate` hook, which refreshes `last_update` (status unchanged). -/
noncomputable def addSupportingSoldier (p : BorderPush) (now : ℝ) : BorderPush :=
  let supporting : Nat := p.supporting_soldiers + 1
  let strength : ℝ := 1.0 * Real.sqrt (supporting : ℝ)
  let speed : ℝ := computePushSpeed strength p.resistance_strength p.terrain_modifier
  { p with supporting_soldiers := supporting
         , push_strength := strength
         , push_speed := speed
         , last_update := now }

/-- `BorderPush.prototype.addDefendingSoldier`: increments
`defending_soldiers`, recomputes `resistance_strength = 1.0 * Math.sqrt
(defending_soldiers)` and the clamped `push_speed`; its `save()` refreshes
`last_update` via the `beforeUpdate` hook. -/
noncomputable def addDefendingSoldier (p : BorderPush) (now : ℝ) : BorderPush :=
  let defending : Nat := p.defending_soldiers + 1
  let resistance : ℝ := 1.0 * Real.sqrt (defending : ℝ)
  let speed : ℝ := computePushSpeed p.push_strength resistance p.terrain_modifier
  { p with defending_soldiers := defending
         , resistance_strength := resistance
         , push_speed := speed
         , last_update := now }

/-- `BorderPush.prototype.stopPush(reason)`: throws (`none`) unless the
push is `active`; otherwise commits final progress via `updateProgress`,
then sets `status` to `successful` when `reason === 'successful'` and to
`cancelled` otherwise, and `ended_at = now` (the `beforeUpdate` hook would
set the same `ended_at` on this status change). -/
noncomputable def stopPush (p : BorderPush) (reason : String) (now : ℝ) :
    Option BorderPush :=
  if p.status ≠ PushStatus.active then none
  else
    let p1 := updateProgress p now
    some { p1 with
            status := if reason = "successful" then PushStatus.successful
                      else PushStatus.cancelled
          , ended_at := some now }

end BorderPush

/-- `Player.prototype.consumeResources(amount)`: returns `false` without
mutating when `resources < amount`, otherwise decrements and saves.  The
Bool is the JS return value (`false` vs the saved row). -/
def Player.consumeResources (pl : Player) (amount : Int) : Bool × Player :=
  if pl.resources < amount then (false, pl)
  else (true, { pl with resources := pl.resources - amount })

/-- `Country.prototype.consumeResources(amount)` (Country.js): identical
check-then-decrement to the Player version. -/
def Country.consumeResources (c : Country) (amount : Int) : Bool × Country :=
  if c.resources < amount then (false, c)
  else (true, { c with resources := c.resources - amount })

/-- `War.prototype.canEndWar(playerId)`: only the declarer may end it. -/
def War.canEndWar (w : War) (playerId : Nat) : Bool :=
  w.declared_by == playerId

/-- Pair condition of the declare-war duplicate query: the war links the
two given countries, in either direction. -/
def warMatchesPair (w : War) (a b : Nat) : Bool :=
  (w.aggressor_country_id == a && w.defender_country_id == b) ||
  (w.aggressor_country_id == b && w.defender_country_id == a)

/-- Predicate of the `War.findOne` duplicate query in the declare-war
route: a war between the pair (either direction) with `status: 'active'`. -/
def activeWarBetween (w : War) (a b : Nat) : Bool :=
  warMatchesPair w a b && w.status == WarStatus.active

/-- Number of active wars between an unordered pair of countries. -/
def countActiveBetween (ws : List War) (a b : Nat) : Nat :=
  (ws.filter (fun w => activeWarBetween w a b)).length

/-- `findByPk` on the countries table. -/
def Country.findByPk (cs : List Country) (i : Nat) : Option Country :=
  cs.find? (fun c => c.id == i)

/-- `declared_at` of the declaring player's most recent war
(`War.findOne({where: {declared_by}, order: [['declared_at','DESC']]})`);
wars are never deleted, so this is the player's latest declaration. -/
noncomputable def lastWarDeclaredAt (ws : List War) (playerId : Nat) : Option ℝ :=
  ((ws.filter (fun w => w.declared_by == playerId)).map (fun w => w.declared_at)).max?

/-- Outcome codes of `POST /api/game/declare-war`, in route order. -/
inductive DeclareWarResult
  | noCountry
  | accessDenied
  | targetNotFound
  | targetUnclaimed
  | selfWar
  | conflict
  | rateLimited
  | created (warId : Nat)
deriving DecidableEq

/-- War-declaration cooldown: `WAR_DECLARATION_COOLDOWN_MS` defaults to
300000 ms. -/
def WAR_DECLARATION_COOLDOWN_MS : ℝ := 300000

/-- Creation step of the declare-war route: `War.create` (status defaults
to `active`, `declared_at` to now) followed by the War `afterCreate` hook,
which sets `is_at_war = true` and `active_wars = active_wars + 1` on both
countries.  `War.create` prepends the new row. -/
def declareWarCreate (st : GameState) (playerId srcId tgtId newWarId : Nat)
    (now : ℝ) : DeclareWarResult × GameState :=
  let war : War :=
    { id := newWarId
    , aggressor_country_id := srcId
    , defender_country_id := tgtId
    , declared_by := playerId
    , status := WarStatus.active
    , declared_at := now
    , ended_at := none
    , ended_by := none
    , winner_country_id := none }
  let countries := st.countries.map (fun c =>
    if c.id == srcId || c.id == tgtId then
      { c with is_at_war := true, active_wars := c.active_wars + 1 }
    else c)
  (DeclareWarResult.created newWarId,
   { st with wars := war :: st.wars, countries := countries })

/-- `POST /api/game/declare-war` (part_001): requires the player to own a
country; checks the target exists, is claimed and differs from the source;
returns `Conflict` when an active war already links the pair in either
direction; enforces the declaration cooldown against the player's most
recent declaration; otherwise creates the war.  Joi validation and the
history/broadcast side effects are outside the modelled state. -/
noncomputable def declareWarRoute (st : GameState) (player : Player)
    (tgtId newWarId : Nat) (now : ℝ) : DeclareWarResult × GameState :=
  match player.country_id with
  | none => (DeclareWarResult.noCountry, st)
  | some srcCountryId =>
    match Country.findByPk st.countries srcCountryId with
    | none => (DeclareWarResult.accessDenied, st)
    | some sourceCountry =>
      if sourceCountry.owner_id ≠ some player.id then
        (DeclareWarResult.accessDenied, st)
      else
        match Country.findByPk st.countries tgtId with
        | none => (DeclareWarResult.targetNotFound, st)
        | some targetCountry =>
          if targetCountry.is_claimed = false then
            (DeclareWarResult.targetUnclaimed, st)
          else if sourceCountry.id = targetCountry.id then
            (DeclareWarResult.selfWar, st)
          else if (st.wars.find? (fun w =>
              activeWarBetween w sourceCountry.id targetCountry.id)).isSome then
            (DeclareWarResult.conflict, st)
          else
            match lastWarDeclaredAt st.wars player.id with
            | some t =>
              if now - t < WAR_DECLARATION_COOLDOWN_MS then
                (DeclareWarResult.rateLimited, st)
              else
                declareWarCreate st player.id sourceCountry.id targetCountry.id
                  newWarId now
            | none =>
              declareWarCreate st player.id sourceCountry.id targetCountry.id
                newWarId now

/-- Outcome codes of `POST /api/game/end-war/:id`, in route order. -/
inductive EndWarResult
  | notFound
  | notActive
  | forbidden
  | ok
deriving DecidableEq

/-- Country-side effect of the War `afterUpdate` hook when a war ends:
`active_wars = GREATEST(active_wars - 1, 0)`, then `is_at_war` is cleared
(and `active_wars` re-floored) when the decremented count is ≤ 0. -/
def countryAfterWarEnded (c : Country) : Country :=
  let aw := max (c.active_wars - 1) 0
  if aw ≤ 0 then { c with active_wars := 0, is_at_war := false }
  else { c with active_wars := aw }

/-- `POST /api/game/end-war/:id` (part_001): finds the war, requires it
`active` and the requester to be the declarer (`canEndWar`); on success
`war.endWar(playerId)` sets `status = ended`, `ended_by`, `ended_at = now`
and a null winner, then the route bulk-updates
`BorderPush.update({status:'cancelled'}, {where:{war_id, status:'active'}})`.
That static bulk update runs no per-row hooks (no `individualHooks`
option is passed), so it writes only the `status` column: `ended_at` of
the cancelled pushes is not touched.  The War `afterUpdate` hook then
adjusts both countries' war counters (null winner: no win/loss counters). -/
noncomputable def endWarRoute (st : GameState) (playerId warId : Nat) (now : ℝ) :
    EndWarResult × GameState :=
  match st.wars.find? (fun w => w.id == warId) with
  | none => (EndWarResult.notFound, st)
  | some war =>
    if war.status ≠ WarStatus.active then (EndWarResult.notActive, st)
    else if War.canEndWar war playerId = false then (EndWarResult.forbidden, st)
    else
      let wars := st.wars.map (fun w =>
        if w.id == warId then
          { w with status := WarStatus.ended
                 , ended_by := some playerId
                 , winner_country_id := none
                 , ended_at := some now }
        else w)
      let pushes := st.pushes.map (fun p =>
        if p.war_id == warId && p.status == PushStatus.active then
          { p with status := PushStatus.cancelled }
        else p)
      let countries := st.countries.map (fun c =>
        if c.id == war.aggressor_country_id || c.id == war.defender_country_id then
          countryAfterWarEnded c
        else c)
      (EndWarResult.ok,
       { st with wars := wars, pushes := pushes, countries := countries })

/-- Outcome codes of `POST /api/game/border-push`, in route order. -/
inductive StartPushResult
  | noActiveWar
  | activePushExists
  | rateLimited
  | insufficientResources
  | created (pushId : Nat)
deriving DecidableEq

/-- State-mutating steps a route performs, recorded in the order its
statements execute, so that the sequencing of persistence effects within
one handler is itself an observable of the embedding. -/
inductive RouteStep
  | createBorderPush
  | debitPlayer
deriving DecidableEq

/-- Border-push cooldown: `BORDER_PUSH_COOLDOWN_MS` defaults to 5000 ms. -/
def BORDER_PUSH_COOLDOWN_MS : ℝ := 5000

/-- Push cost fixed in the route: `const resourceCost = 10`. -/
def resourceCost : Int := 10

/-- The player's most recent border push
(`BorderPush.findOne({where: {player_id}, order: [['started_at','DESC']]})`). -/
noncomputable def lastPushOf (ps : List BorderPush) (playerId : Nat) :
    Option BorderPush :=
  (ps.filter (fun p => p.player_id == playerId)).argmax (fun p => p.started_at)

/-- The `BorderPush.create` argument object of the border-push route
(strength 1.0, terrain 1.0, column defaults for the rest), run through the
`beforeCreate` hook that derives `push_speed`. -/
noncomputable def newBorderPush (newPushId warId playerId srcId tgtId : Nat)
    (now : ℝ) : BorderPush :=
  BorderPush.beforeCreate
    { id := newPushId
    , war_id := warId
    , player_id := playerId
    , source_country_id := srcId
    , target_country_id := tgtId
    , status := PushStatus.active
    , push_strength := 1.0
    , resistance_strength := 1.0
    , terrain_modifier := 1.0
    , distance_pushed := 0
    , territory_gained := 0
    , supporting_soldiers := 1
    , defending_soldiers := 0
    , push_speed := 1.0
    , started_at := now
    , last_update := now
    , ended_at := none }

/-- `POST /api/game/border-push` (part_001): requires an active war whose
aggressor is the player's country (the `requireCountryMember` middleware
guarantees `country_id` is set; a null `country_id` could match no war);
rejects when the player's most recent push is still `active`, then applies
the push cooldown against its `started_at`; checks
`req.player.resources < resourceCost` and fails with Insufficient
Resources; otherwise `BorderPush.create(...)` runs first and
`req.player.consumeResources(resourceCost)` is called after it — the
recorded step list reflects that statement order. -/
noncomputable def startPushRoute (st : GameState) (player : Player)
    (tgtId newPushId : Nat) (now : ℝ) :
    StartPushResult × GameState × List RouteStep :=
  match player.country_id with
  | none => (StartPushResult.noActiveWar, st, [])
  | some srcCountryId =>
    match st.wars.find? (fun w =>
        w.aggressor_country_id == srcCountryId &&
        w.defender_country_id == tgtId &&
        w.status == WarStatus.active) with
    | none => (StartPushResult.noActiveWar, st, [])
    | some war =>
      let proceed : StartPushResult × GameState × List RouteStep :=
        if player.resources < resourceCost then
          (StartPushResult.insufficientResources, st, [])
        else
          let push := newBorderPush newPushId war.id player.id srcCountryId tgtId now
          let debited := (Player.consumeResources player resourceCost).2
          let players := st.players.map (fun q =>
            if q.id == player.id then debited else q)
          (StartPushResult.created newPushId,
           { st with pushes := push :: st.pushes, players := players },
           [RouteStep.createBorderPush, RouteStep.debitPlayer])
      match lastPushOf st.pushes player.id with
      | some lastPush =>
        if lastPush.status = PushStatus.active then
          (StartPushResult.activePushExists, st, [])
        else if now - lastPush.started_at < BORDER_PUSH_COOLDOWN_MS then
          (StartPushResult.rateLimited, st, [])
        else proceed
      | none => proceed

/-- Events the conflict tick emits to the socket rooms of the two
countries of a push. -/
inductive TickEvent
  | completed (pushId : Nat) (territory_gained : ℝ)
  | lost (pushId : Nat) (territory_lost : ℝ)
  | progressUpdate (pushId : Nat) (info : ProgressInfo)

/-- Territory value carried by a tick event (the `territory_gained` /
`territory_lost` / `progress.territory` payload field). -/
noncomputable def TickEvent.territoryValue : TickEvent → ℝ
  | TickEvent.completed _ t => t
  | TickEvent.lost _ t => t
  | TickEvent.progressUpdate _ info => info.territory

/-- Completion threshold of the conflict tick:
`if (progress.distance > 10000)` — "10km limit for demo". -/
def PUSH_DISTANCE_LIMIT : ℝ := 10000

/-- Per-push body of the 5-second conflict tick in `startPeriodicUpdates`
(part_000): computes `progress = push.calculateCurrentProgress()`
read-only; when `progress.distance > 10000` it stops the push as
`successful` (committing its final progress inside `stopPush`) and emits
`completed` to the source room and `lost` to the target room, both
carrying `progress.territory`; otherwise it emits one progress update to
each room and leaves the row untouched — no commit happens on this branch. -/
noncomputable def conflictTickPush (p : BorderPush) (now : ℝ) :
    BorderPush × List TickEvent :=
  let progress := BorderPush.calculateCurrentProgress p now
  if progress.distance > PUSH_DISTANCE_LIMIT then
    match BorderPush.stopPush p "successful" now with
    | some p1 =>
      (p1, [TickEvent.completed p.id progress.territory,
            TickEvent.lost p.id progress.territory])
    | none => (p, [])
  else
    (p, [TickEvent.progressUpdate p.id progress,
         TickEvent.progressUpdate p.id progress])

/-- One round of the conflict tick over the whole state:
`BorderPush.findActivePushes()` selects the `active` rows and each is
processed by the per-push body; rows that are not active are untouched,
and no table other than `border_pushes` is written (in particular no
country territory counter). -/
noncomputable def conflictTick (st : GameState) (now : ℝ) :
    GameState × List TickEvent :=
  let results := st.pushes.map (fun p =>
    if p.status = PushStatus.active then conflictTickPush p now else (p, []))
  ({ st with pushes := results.map Prod.fst },
   (results.map Prod.snd).flatten)

/-- The socket handler `border_push:update` (part_000): commits progress
of one active push on demand via `updateProgress`. -/
noncomputable def socketPushUpdate (st : GameState) (pushId : Nat) (now : ℝ) :
    GameState :=
  match st.pushes.find? (fun p => p.id == pushId) with
  | none => st
  | some push =>
    if push.status ≠ PushStatus.active then st
    else
      { st with pushes := st.pushes.map (fun p =>
          if p.id == pushId then BorderPush.updateProgress p now else p) }

/-- Reachability of a game state through the modelled mutators.  The
constructor `warsPreserved` over-approximates every operation that leaves
the wars table unchanged (border-push start/join/defend, the conflict
tick, the socket progress commit, ledger operations): none of them writes
a War row's status or country pair, so any conclusion drawn for all
reachable states covers them. -/
inductive Reachable : GameState → Prop
  | init (st : GameState) : st.wars = [] → Reachable st
  | declare (st : GameState) (player : Player) (tgtId newWarId : Nat) (now : ℝ) :
      Reachable st → Reachable (declareWarRoute st player tgtId newWarId now).2
  | endw (st : GameState) (playerId warId : Nat) (now : ℝ) :
      Reachable st → Reachable (endWarRoute st playerId warId now).2
  | warsPreserved (st st' : GameState) :
      Reachable st → st'.wars = st.wars → Reachable st'

/-- The pair invariant of the War table: at most one `active` war exists
for any unordered pair of countries. -/
def warsInvariant (ws : List War) : Prop :=
  ∀ a b : Nat, countActiveBetween ws a b ≤ 1

/-
  Concrete rows and states, used to instantiate the universally
  quantified theorems and to evaluate the routes at explicit inputs.
-/

/-- Claimed country 0, owned by player 1. -/
noncomputable def cEx0 : Country :=
  { id := 0, is_claimed := true, owner_id := some 1, resources := 100
  , is_at_war := true, active_wars := 1, territory_gained := 0, territory_lost := 0 }

/-- Claimed country 1, owned by player 2. -/
noncomputable def cEx1 : Country :=
  { id := 1, is_claimed := true, owner_id := some 2, resources := 100
  , is_at_war := true, active_wars := 1, territory_gained := 0, territory_lost := 0 }

/-- Player 1, member of country 0, with 100 resources. -/
def plEx : Player := { id := 1, country_id := some 0, resources := 100 }

/-- Active war 1: country 0 (aggressor, declared by player 1) against
country 1. -/
noncomputable def warEx : War :=
  { id := 1, aggressor_country_id := 0, defender_country_id := 1
  , declared_by := 1, status := WarStatus.active, declared_at := 0
  , ended_at := none, ended_by := none, winner_country_id := none }

/-- Active push 10 of war 1 by player 1, fresh: zero distance, speed 1,
`last_update = 0`. -/
noncomputable def pushEx : BorderPush :=
  { id := 10, war_id := 1, player_id := 1, source_country_id := 0
  , target_country_id := 1, status := PushStatus.active
  , push_strength := 1, resistance_strength := 1, terrain_modifier := 1
  , distance_pushed := 0, territory_gained := 0
  , supporting_soldiers := 1, defending_soldiers := 0, push_speed := 1
  , started_at := 0, last_update := 0, ended_at := none }

/-- Active push 11 of war 1 that is far beyond the 10000 m limit. -/
noncomputable def pushFar : BorderPush :=
  { pushEx with id := 11, distance_pushed := 20000 }

/-- A push of war 1 already in the terminal status `successful`. -/
noncomputable def pushDone : BorderPush :=
  { pushEx with id := 12, status := PushStatus.successful, ended_at := some 500 }

/-- A state with no wars at all. -/
def stEmpty : GameState := { players := [], countries := [], wars := [], pushes := [] }

/-- State with the two countries and war 1 already active. -/
noncomputable def stWar : GameState :=
  { players := [plEx], countries := [cEx0, cEx1], wars := [warEx], pushes := [] }

/-- State for the conflict-tick evaluation: war 1 with one fresh push and
one push beyond the limit, countries with zero territory counters. -/
noncomputable def stTick : GameState :=
  { players := [plEx], countries := [cEx0, cEx1], wars := [warEx]
  , pushes := [pushEx, pushFar] }

/-- State for the end-war evaluation: war 1 with one active push
(`ended_at = none`) and one already-terminal push. -/
noncomputable def stEndWar : GameState :=
  { players := [plEx], countries := [cEx0, cEx1], wars := [warEx]
  , pushes := [pushEx, pushDone] }

/-
  Helper lemmas.
-/

/-- The clamp `Math.max(0.1, Math.min(5.0, x))` always lands in
[0.1, 5.0]. -/
theorem clampSpeed_bounds (x : ℝ) : 0.1 ≤ clampSpeed x ∧ clampSpeed x ≤ 5.0 := by
  unfold clampSpeed
  constructor
  · exact le_max_left _ _
  · exact max_le (by norm_num) (min_le_left _ _)

/-- The shared speed formula inherits the clamp bounds. -/
theorem computePushSpeed_bounds (s r t : ℝ) :
    0.1 ≤ computePushSpeed s r t ∧ computePushSpeed s r t ≤ 5.0 := by
  unfold computePushSpeed
  exact clampSpeed_bounds _

/-
  Claim theorems.
-/

/-- C5: after creation (the `beforeCreate` hook) and after every
`addSupportingSoldier` or `addDefendingSoldier`, `push_speed` lies within
[0.1, 5.0], however large the soldier counts or the terrain modifier are
(with a positive terrain modifier), because every one of these writers
routes the raw formula through `Math.max(0.1, Math.min(5.0, ·))`. -/
theorem push_speed_clamped (p : BorderPush) (now : ℝ)
    (_hterrain : 0 < p.terrain_modifier) :
    (0.1 ≤ (BorderPush.beforeCreate p).push_speed ∧
       (BorderPush.beforeCreate p).push_speed ≤ 5.0) ∧
    (0.1 ≤ (BorderPush.addSupportingSoldier p now).push_speed ∧
       (BorderPush.addSupportingSoldier p now).push_speed ≤ 5.0) ∧
    (0.1 ≤ (BorderPush.addDefendingSoldier p now).push_speed ∧
       (BorderPush.addDefendingSoldier p now).push_speed ≤ 5.0) := by
  refine ⟨?_, ?_, ?_⟩
  · simpa [BorderPush.beforeCreate] using computePushSpeed_bounds
      p.push_strength p.resistance_strength p.terrain_modifier
  · simpa [BorderPush.addSupportingSoldier] using computePushSpeed_bounds
      (1.0 * Real.sqrt ((p.supporting_soldiers + 1 : Nat) : ℝ))
      p.resistance_strength p.terrain_modifier
  · simpa [BorderPush.addDefendingSoldier] using computePushSpeed_bounds
      p.push_strength (1.0 * Real.sqrt ((p.defending_soldiers + 1 : Nat) : ℝ))
      p.terrain_modifier

/-- Witness for C5 at the concrete fresh push (terrain modifier 1). -/
theorem push_speed_clamped_witness :
    0 < pushEx.terrain_modifier ∧
    (0.1 ≤ (BorderPush.addSupportingSoldier pushEx 0).push_speed ∧
       (BorderPush.addSupportingSoldier pushEx 0).push_speed ≤ 5.0) :=
  ⟨by norm_num [pushEx], (push_speed_clamped pushEx 0 (by norm_num [pushEx])).2.1⟩

/-- C2: for both ledger entities the debit is a check-then-decrement:
with balance strictly below the amount it returns `false` and mutates
nothing; with balance at least the amount it succeeds, the new balance is
exactly the old balance minus the amount, and that difference is never
negative. -/
theorem debit_check_then_decrement (pl : Player) (c : Country) (amount : Int) :
    ((pl.resources < amount → Player.consumeResources pl amount = (false, pl)) ∧
     (amount ≤ pl.resources →
        (Player.consumeResources pl amount).1 = true ∧
        (Player.consumeResources pl amount).2.resources = pl.resources - amount ∧
        0 ≤ (Player.consumeResources pl amount).2.resources)) ∧
    ((c.resources < amount → Country.consumeResources c amount = (false, c)) ∧
     (amount ≤ c.resources →
        (Country.consumeResources c amount).1 = true ∧
        (Country.consumeResources c amount).2.resources = c.resources - amount ∧
        0 ≤ (Country.consumeResources c amount).2.resources)) := by
  constructor
  · constructor
    · intro h
      simp [Player.consumeResources, h]
    · intro h
      have h' : ¬ pl.resources < amount := not_lt.mpr h
      simp [Player.consumeResources, h']
      omega
  · constructor
    · intro h
      simp [Country.consumeResources, h]
    · intro h
      have h' : ¬ c.resources < amount := not_lt.mpr h
      simp [Country.consumeResources, h']
      omega

/-- Witness for C2: player 1 (100 resources) debited 30 succeeds with 70
left; country 0 (100 resources) debited 200 fails unchanged. -/
theorem debit_check_then_decrement_witness :
    ((Player.consumeResources plEx 30).1 = true ∧
     (Player.consumeResources plEx 30).2.resources = plEx.resources - 30 ∧
     0 ≤ (Player.consumeResources plEx 30).2.resources) ∧
    Country.consumeResources cEx0 200 = (false, cEx0) :=
  ⟨(debit_check_then_decrement plEx cEx0 30).1.2 (by norm_num [plEx]),
   (debit_check_then_decrement plEx cEx0 200).2.1 (by norm_num [cEx0])⟩

/-- C7: for an active push, `addSupportingSoldier` increments
`supporting_soldiers` and then recomputes `push_strength = 1.0 *
Math.sqrt(supporting_soldiers)`, and `addDefendingSoldier` increments
`defending_soldiers` and then recomputes `resistance_strength = 1.0 *
Math.sqrt(defending_soldiers)`; both then recompute `push_speed` as the
clamped `1.0 * (push_strength / resistance_strength) *
(1 / terrain_modifier)` from the updated row's own fields. -/
theorem join_defend_recompute (p : BorderPush) (now : ℝ)
    (_hact : p.status = PushStatus.active) :
    ((BorderPush.addSupportingSoldier p now).supporting_soldiers =
        p.supporting_soldiers + 1 ∧
     (BorderPush.addSupportingSoldier p now).push_strength =
        1.0 * Real.sqrt (((BorderPush.addSupportingSoldier p now).supporting_soldiers : ℝ)) ∧
     (BorderPush.addSupportingSoldier p now).push_speed =
        clampSpeed (1.0 *
          ((BorderPush.addSupportingSoldier p now).push_strength /
            (BorderPush.addSupportingSoldier p now).resistance_strength) *
          (1 / (BorderPush.addSupportingSoldier p now).terrain_modifier))) ∧
    ((BorderPush.addDefendingSoldier p now).defending_soldiers =
        p.defending_soldiers + 1 ∧
     (BorderPush.addDefendingSoldier p now).resistance_strength =
        1.0 * Real.sqrt (((BorderPush.addDefendingSoldier p now).defending_soldiers : ℝ)) ∧
     (BorderPush.addDefendingSoldier p now).push_speed =
        clampSpeed (1.0 *
          ((BorderPush.addDefendingSoldier p now).push_strength /
            (BorderPush.addDefendingSoldier p now).resistance_strength) *
          (1 / (BorderPush.addDefendingSoldier p now).terrain_modifier))) := by
  refine ⟨⟨rfl, rfl, ?_⟩, ⟨rfl, rfl, ?_⟩⟩
  · simp [BorderPush.addSupportingSoldier, computePushSpeed]
  · simp [BorderPush.addDefendingSoldier, computePushSpeed]

/-- Witness for C7 at the concrete fresh push. -/
theorem join_defend_recompute_witness :
    (BorderPush.addSupportingSoldier pushEx 0).supporting_soldiers =
      pushEx.supporting_soldiers + 1 ∧
    (BorderPush.addDefendingSoldier pushEx 0).defending_soldiers =
      pushEx.defending_soldiers + 1 :=
  ⟨(join_defend_recompute pushEx 0 rfl).1.1,
   (join_defend_recompute pushEx 0 rfl).2.1⟩

/-- C8: committing progress is monotone: for an active push with the
(derived, clamped) speed non-negative and a non-negative elapsed time
since `last_update`, `distance_pushed` after `updateProgress` is at least
its value before. -/
theorem distance_pushed_monotone (p : BorderPush) (now : ℝ)
    (hact : p.status = PushStatus.active)
    (hspeed : 0 ≤ p.push_speed)
    (helapsed : p.last_update ≤ now) :
    p.distance_pushed ≤ (BorderPush.updateProgress p now).distance_pushed := by
  have hnonneg : 0 ≤ p.push_speed * ((now - p.last_update) / 1000) := by
    apply mul_nonneg hspeed
    have : (0:ℝ) ≤ now - p.last_update := by linarith
    positivity
  simp [BorderPush.updateProgress, BorderPush.calculateCurrentProgress, hact]
  linarith

/-- Witness for C8 at the concrete fresh push, 5 seconds after its last
update. -/
theorem distance_pushed_monotone_witness :
    pushEx.status = PushStatus.active ∧ 0 ≤ pushEx.push_speed ∧
    pushEx.last_update ≤ (5000:ℝ) ∧
    pushEx.distance_pushed ≤ (BorderPush.updateProgress pushEx 5000).distance_pushed :=
  ⟨rfl, by norm_num [pushEx], by norm_num [pushEx],
   distance_pushed_monotone pushEx 5000 rfl (by norm_num [pushEx]) (by norm_num [pushEx])⟩

/-- C9: the read-only progress query: on an active push it returns the
candidate `distance_pushed + push_speed * ((now - last_update)/1000)`
together with the stored territory, and the row itself is returned
unchanged — `calculateCurrentProgress` contains no assignment, so its
state component is the input row (every field, in particular
`distance_pushed`, `last_update`, `territory_gained` and `status`,
unchanged). -/
theorem progress_query_readonly (p : BorderPush) (now : ℝ)
    (hact : p.status = PushStatus.active) :
    BorderPush.calculateCurrentProgressRun p now =
      ({ distance := p.distance_pushed + p.push_speed * ((now - p.last_update) / 1000)
       , territory := p.territory_gained
       , isActive := true }, p) := by
  simp [BorderPush.calculateCurrentProgressRun, BorderPush.calculateCurrentProgress, hact]

/-- Witness for C9 at the concrete fresh push: candidate after 5 s is 5 m
and the row is unchanged. -/
theorem progress_query_readonly_witness :
    BorderPush.calculateCurrentProgressRun pushEx 5000 =
      ({ distance := pushEx.distance_pushed + pushEx.push_speed * ((5000 - pushEx.last_update) / 1000)
       , territory := pushEx.territory_gained
       , isActive := true }, pushEx) :=
  progress_query_readonly pushEx 5000 rfl

/-- C10: the progress query reports `territory` as the stored (last
committed) `territory_gained` in both of its branches, never recomputed
from the candidate distance; on a terminal push it reports the stored
`distance_pushed` with no extrapolation; and every event the conflict
tick emits for a push (progress, completed, lost) carries exactly the
push's stored `territory_gained` from before the tick body ran. -/
theorem territory_reported_last_committed :
    (∀ (p : BorderPush) (now : ℝ),
       (BorderPush.calculateCurrentProgress p now).territory = p.territory_gained) ∧
    (∀ (p : BorderPush) (now : ℝ), p.status ≠ PushStatus.active →
       BorderPush.calculateCurrentProgress p now =
         { distance := p.distance_pushed, territory := p.territory_gained
         , isActive := false }) ∧
    (∀ (p : BorderPush) (now : ℝ) (e : TickEvent),
       e ∈ (conflictTickPush p now).2 →
       TickEvent.territoryValue e = p.territory_gained) := by
  have hterr : ∀ (p : BorderPush) (now : ℝ),
      (BorderPush.calculateCurrentProgress p now).territory = p.territory_gained := by
    intro p now
    by_cases hact : p.status = PushStatus.active <;>
      simp [BorderPush.calculateCurrentProgress, hact]
  refine ⟨hterr, ?_, ?_⟩
  · intro p now hact
    simp [BorderPush.calculateCurrentProgress, hact]
  · intro p now e he
    unfold conflictTickPush at he
    by_cases hd : (BorderPush.calculateCurrentProgress p now).distance > PUSH_DISTANCE_LIMIT
    · simp only [hd, if_true] at he
      cases hstop : BorderPush.stopPush p "successful" now with
      | none => simp [hstop] at he
      | some p1 =>
        simp only [hstop] at he
        simp only [List.mem_cons, List.not_mem_nil, or_false] at he
        rcases he with rfl | rfl <;>
          simp [TickEvent.territoryValue, hterr]
    · simp only [hd, if_false] at he
      simp only [List.mem_cons, List.not_mem_nil, or_false] at he
      rcases he with rfl | rfl <;>
        simp [TickEvent.territoryValue, hterr]

/-- Witness for C10: a progress event of the tick on the concrete fresh
push carries the stored territory. -/
theorem territory_reported_last_committed_witness :
    TickEvent.territoryValue
      (TickEvent.progressUpdate pushEx.id (BorderPush.calculateCurrentProgress pushEx 5000)) =
      pushEx.territory_gained ∧
    BorderPush.calculateCurrentProgress pushDone 5000 =
      { distance := pushDone.distance_pushed
      , territory := pushDone.territory_gained, isActive := false } := by
  constructor
  · exact territory_reported_last_committed.2.2 pushEx 5000
      (TickEvent.progressUpdate pushEx.id (BorderPush.calculateCurrentProgress pushEx 5000))
      (by
        unfold conflictTickPush
        have hd : ¬ (BorderPush.calculateCurrentProgress pushEx 5000).distance >
            PUSH_DISTANCE_LIMIT := by
          norm_num [BorderPush.calculateCurrentProgress, pushEx, PUSH_DISTANCE_LIMIT]
        simp [hd])
  · exact territory_reported_last_committed.2.1 pushDone 5000 (by
      simp [pushDone, pushEx])

/-- The progress query reports the stored territory in both branches
(helper shared by several claims). -/
theorem calcProgress_territory (p : BorderPush) (now : ℝ) :
    (BorderPush.calculateCurrentProgress p now).territory = p.territory_gained := by
  by_cases hact : p.status = PushStatus.active <;>
    simp [BorderPush.calculateCurrentProgress, hact]

/-- C1 (amended): on a conflict tick, each active BorderPush has its
candidate progress computed read-only; when the candidate distance
exceeds the 10000 m limit the push is stopped as successful — its final
progress is committed by `stopPush` and distinct completed/lost events
(carrying the pre-tick stored territory) go to source and target;
otherwise the push row is left entirely unchanged — the candidate is NOT
committed — and a progress event goes to each side.  The tick writes no
other table: in particular no country territory counter is awarded. -/
theorem conflictTick_commit_policy (p : BorderPush) (now : ℝ)
    (hact : p.status = PushStatus.active) :
    (¬ (BorderPush.calculateCurrentProgress p now).distance > PUSH_DISTANCE_LIMIT →
       conflictTickPush p now =
         (p, [TickEvent.progressUpdate p.id (BorderPush.calculateCurrentProgress p now),
              TickEvent.progressUpdate p.id (BorderPush.calculateCurrentProgress p now)])) ∧
    ((BorderPush.calculateCurrentProgress p now).distance > PUSH_DISTANCE_LIMIT →
       conflictTickPush p now =
         ({ BorderPush.updateProgress p now with
              status := PushStatus.successful, ended_at := some now },
          [TickEvent.completed p.id p.territory_gained,
           TickEvent.lost p.id p.territory_gained])) ∧
    (∀ st : GameState,
       (conflictTick st now).1.countries = st.countries ∧
       (conflictTick st now).1.wars = st.wars ∧
       (conflictTick st now).1.players = st.players ∧
       (conflictTick st now).1.pushes = st.pushes.map (fun q =>
          if q.status = PushStatus.active then (conflictTickPush q now).1 else q)) := by
  refine ⟨?_, ?_, ?_⟩
  · intro hd
    simp [conflictTickPush, hd]
  · intro hd
    have hstop : BorderPush.stopPush p "successful" now =
        some { BorderPush.updateProgress p now with
                status := PushStatus.successful, ended_at := some now } := by
      simp [BorderPush.stopPush, hact]
    simp [conflictTickPush, hd, hstop, calcProgress_territory]
  · intro st
    refine ⟨rfl, rfl, rfl, ?_⟩
    simp [conflictTick, List.map_map, Function.comp_def, apply_ite]

/-- Witness for C1's amended theorem: the fresh push (candidate 5 m after
5 s) is untouched by the tick and only progress events are emitted. -/
theorem conflictTick_commit_policy_witness :
    conflictTickPush pushEx 5000 =
      (pushEx,
       [TickEvent.progressUpdate pushEx.id (BorderPush.calculateCurrentProgress pushEx 5000),
        TickEvent.progressUpdate pushEx.id (BorderPush.calculateCurrentProgress pushEx 5000)]) :=
  (conflictTick_commit_policy pushEx 5000 rfl).1
    (by norm_num [BorderPush.calculateCurrentProgress, pushEx, PUSH_DISTANCE_LIMIT])

/-- C1 counterexample, refuting the claim as stated at an explicit input:
in `stTick` at `now = 5000` the fresh push's candidate distance is 5 m,
yet after the tick the push row is exactly the unchanged `pushEx`
(`distance_pushed` still 0, not the committed 5, `last_update` still 0),
and although the far push does complete (status `successful`), the
countries table is exactly unchanged — no `territory_gained` /
`territory_lost` counter is awarded to source or target (the source
country keeps territory_gained = 0). -/
theorem conflictTick_counterexample :
    (BorderPush.calculateCurrentProgress pushEx 5000).distance = 5 ∧
    pushEx.distance_pushed = 0 ∧ (5:ℝ) ≠ 0 ∧
    (conflictTick stTick 5000).1.pushes.head? = some pushEx ∧
    ((conflictTick stTick 5000).1.pushes.map (fun q => q.status)) =
      [PushStatus.active, PushStatus.successful] ∧
    (conflictTick stTick 5000).1.countries = stTick.countries ∧
    cEx0.territory_gained = 0 := by
  have hprogEx : BorderPush.calculateCurrentProgress pushEx 5000 =
      { distance := 5, territory := 0, isActive := true } := by
    norm_num [BorderPush.calculateCurrentProgress, pushEx]
  have hprogFar : BorderPush.calculateCurrentProgress pushFar 5000 =
      { distance := 20005, territory := 0, isActive := true } := by
    norm_num [BorderPush.calculateCurrentProgress, pushFar, pushEx]
  have htickEx : conflictTickPush pushEx 5000 =
      (pushEx,
       [TickEvent.progressUpdate pushEx.id (BorderPush.calculateCurrentProgress pushEx 5000),
        TickEvent.progressUpdate pushEx.id (BorderPush.calculateCurrentProgress pushEx 5000)]) := by
    have hd : ¬ (BorderPush.calculateCurrentProgress pushEx 5000).distance >
        PUSH_DISTANCE_LIMIT := by
      rw [hprogEx]; norm_num [PUSH_DISTANCE_LIMIT]
    simp [conflictTickPush, hd]
  have hstopFar : BorderPush.stopPush pushFar "successful" 5000 =
      some { BorderPush.updateProgress pushFar 5000 with
              status := PushStatus.successful, ended_at := some 5000 } := by
    simp [BorderPush.stopPush, pushFar, pushEx]
  have htickFar : conflictTickPush pushFar 5000 =
      ({ BorderPush.updateProgress pushFar 5000 with
          status := PushStatus.successful, ended_at := some 5000 },
       [TickEvent.completed pushFar.id ((BorderPush.calculateCurrentProgress pushFar 5000).territory),
        TickEvent.lost pushFar.id ((BorderPush.calculateCurrentProgress pushFar 5000).territory)]) := by
    have hd : (BorderPush.calculateCurrentProgress pushFar 5000).distance >
        PUSH_DISTANCE_LIMIT := by
      rw [hprogFar]; norm_num [PUSH_DISTANCE_LIMIT]
    simp [conflictTickPush, hd, hstopFar]
  have hstatusEx : pushEx.status = PushStatus.active := rfl
  have hstatusFar : pushFar.status = PushStatus.active := rfl
  refine ⟨by rw [hprogEx], rfl, by norm_num, ?_, ?_, ?_, rfl⟩
  · simp [conflictTick, stTick, hstatusEx, hstatusFar, htickEx, htickFar]
  · simp [conflictTick, stTick, hstatusEx, hstatusFar, htickEx, htickFar,
      BorderPush.updateProgress]
  · simp [conflictTick, stTick]

/-- C3 (evaluated at the failing input): ending war 1 in `stEndWar`
succeeds, its active push becomes `cancelled` and the already-terminal
push is unchanged — no push of the war remains `active` — but because the
route cancels by the static bulk
`BorderPush.update({status:'cancelled'}, {where:{war_id, status:'active'}})`,
which runs no per-row hooks, only the `status` column is written: the
cancelled push's `ended_at` stays `none` rather than the cancellation
time, although the model's own `beforeUpdate` hook sets `ended_at` on
every individual transition out of `active`. -/
theorem endWar_bulk_cancel_eval :
    (endWarRoute stEndWar 1 1 9000).1 = EndWarResult.ok ∧
    (endWarRoute stEndWar 1 1 9000).2.pushes =
      [{ pushEx with status := PushStatus.cancelled }, pushDone] ∧
    ({ pushEx with status := PushStatus.cancelled }).ended_at = none ∧
    ((endWarRoute stEndWar 1 1 9000).2.pushes.map (fun p => p.status)) =
      [PushStatus.cancelled, PushStatus.successful] ∧
    ((endWarRoute stEndWar 1 1 9000).2.wars.map (fun w => w.status)) =
      [WarStatus.ended] :=
  ⟨rfl, rfl, rfl, rfl, rfl⟩

/-- C6 counterexample, refuting the claimed mechanism at an explicit
input: at `stWar` player 1 (100 resources) starts a push against country
1 and the route succeeds — but the recorded order of its mutating steps
is `[createBorderPush, debitPlayer]`: the only ledger debit
(`consumeResources`) executes after `BorderPush.create`, not before the
record is created as the claim states (only a plain balance comparison
precedes the creation). -/
theorem startPush_debit_order_counterexample :
    (startPushRoute stWar plEx 1 7 6000).1 = StartPushResult.created 7 ∧
    (startPushRoute stWar plEx 1 7 6000).2.2 =
      [RouteStep.createBorderPush, RouteStep.debitPlayer] :=
  ⟨rfl, rfl⟩

/-- C6 (amended): the border-push route checks the player's balance
against the push cost before creating anything: when
`resources < resourceCost` it fails with InsufficientResources, mutating
nothing and performing no persistence step; when the balance suffices,
the BorderPush is created first and the debit of the cost is applied to
the player afterwards (it cannot fail, the balance was just checked), so
the final balance is the old balance minus the cost. -/
theorem startPush_resource_gate (st : GameState) (player : Player)
    (tgtId newPushId : Nat) (now : ℝ) (srcId : Nat) (war : War)
    (hcid : player.country_id = some srcId)
    (hwar : st.wars.find? (fun w =>
        w.aggressor_country_id == srcId && w.defender_country_id == tgtId &&
        w.status == WarStatus.active) = some war)
    (hlast : lastPushOf st.pushes player.id = none) :
    (player.resources < resourceCost →
       startPushRoute st player tgtId newPushId now =
         (StartPushResult.insufficientResources, st, [])) ∧
    (resourceCost ≤ player.resources →
       startPushRoute st player tgtId newPushId now =
         (StartPushResult.created newPushId,
          { st with
              pushes := newBorderPush newPushId war.id player.id srcId tgtId now
                          :: st.pushes
            , players := st.players.map (fun q =>
                if q.id == player.id then
                  { player with resources := player.resources - resourceCost }
                else q) },
          [RouteStep.createBorderPush, RouteStep.debitPlayer])) := by
  constructor
  · intro h
    simp [startPushRoute, hcid, hwar, hlast, h]
  · intro h
    have h' : ¬ player.resources < resourceCost := not_lt.mpr h
    simp [startPushRoute, hcid, hwar, hlast, h', Player.consumeResources]

/-- Witness for C6's amended theorem at the concrete state. -/
theorem startPush_resource_gate_witness :
    startPushRoute stWar plEx 1 7 6000 =
      (StartPushResult.created 7,
       { stWar with
           pushes := newBorderPush 7 warEx.id plEx.id 0 1 6000 :: stWar.pushes
         , players := stWar.players.map (fun q =>
             if q.id == plEx.id then
               { plEx with resources := plEx.resources - resourceCost }
             else q) },
       [RouteStep.createBorderPush, RouteStep.debitPlayer]) :=
  (startPush_resource_gate stWar plEx 1 7 6000 0 warEx rfl rfl rfl).2
    (by norm_num [plEx, resourceCost])

/-- The duplicate-war query is symmetric in the pair (it checks both
orientations). -/
theorem activeWarBetween_symm (w : War) (a b : Nat) :
    activeWarBetween w a b = activeWarBetween w b a := by
  simp [activeWarBetween, warMatchesPair, Bool.or_comm]

/-- The active-war count is symmetric in the pair. -/
theorem countActiveBetween_symm (ws : List War) (a b : Nat) :
    countActiveBetween ws a b = countActiveBetween ws b a := by
  have hpred : (fun w => activeWarBetween w a b) = (fun w => activeWarBetween w b a) :=
    funext fun w => activeWarBetween_symm w a b
  rw [countActiveBetween, countActiveBetween, hpred]

/-- Unfolding of the active-war count over a cons cell. -/
theorem countActiveBetween_cons (w : War) (ws : List War) (a b : Nat) :
    countActiveBetween (w :: ws) a b =
      (if activeWarBetween w a b then 1 else 0) + countActiveBetween ws a b := by
  by_cases h : activeWarBetween w a b <;>
    simp [countActiveBetween, List.filter_cons, h, Nat.add_comm]

/-- When the duplicate query finds nothing, the pair's active-war count
is zero. -/
theorem countActive_eq_zero_of_find?_none (ws : List War) (a b : Nat)
    (h : ws.find? (fun w => activeWarBetween w a b) = none) :
    countActiveBetween ws a b = 0 := by
  rw [List.find?_eq_none] at h
  unfold countActiveBetween
  rw [List.length_eq_zero, List.filter_eq_nil_iff]
  exact h

/-- A row-wise transform that never turns a non-matching war into an
active war of the pair cannot increase the pair's active-war count. -/
theorem countActive_map_le (f : War → War) (a b : Nat)
    (hf : ∀ w, activeWarBetween (f w) a b = true → activeWarBetween w a b = true) :
    ∀ ws : List War, countActiveBetween (ws.map f) a b ≤ countActiveBetween ws a b := by
  intro ws
  induction ws with
  | nil => simp [countActiveBetween]
  | cons w ws ih =>
    rw [List.map_cons, countActiveBetween_cons, countActiveBetween_cons]
    by_cases h1 : activeWarBetween (f w) a b = true
    · have h2 := hf w h1
      simp only [h1, h2, if_true]
      omega
    · rw [Bool.not_eq_true] at h1
      simp only [h1, Bool.false_eq_true, if_false]
      by_cases h2 : activeWarBetween w a b = true
      · simp only [h2, if_true]
        omega
      · rw [Bool.not_eq_true] at h2
        simp only [h2, Bool.false_eq_true, if_false]
        omega

/-- Creating a war after the duplicate query came back empty preserves
the pair invariant. -/
theorem declareWarCreate_preserves (st : GameState)
    (playerId srcId tgtId newWarId : Nat) (now : ℝ)
    (h : warsInvariant st.wars)
    (hnone : st.wars.find? (fun w => activeWarBetween w srcId tgtId) = none) :
    warsInvariant (declareWarCreate st playerId srcId tgtId newWarId now).2.wars := by
  intro a b
  have hwars : (declareWarCreate st playerId srcId tgtId newWarId now).2.wars =
      { id := newWarId, aggressor_country_id := srcId, defender_country_id := tgtId
      , declared_by := playerId, status := WarStatus.active, declared_at := now
      , ended_at := none, ended_by := none, winner_country_id := none } :: st.wars := rfl
  rw [hwars, countActiveBetween_cons]
  by_cases hw : activeWarBetween
      { id := newWarId, aggressor_country_id := srcId, defender_country_id := tgtId
      , declared_by := playerId, status := WarStatus.active, declared_at := now
      , ended_at := none, ended_by := none, winner_country_id := none } a b = true
  · have hpair : (srcId = a ∧ tgtId = b) ∨ (srcId = b ∧ tgtId = a) := by
      have hbeq : (WarStatus.active == WarStatus.active) = true := rfl
      simpa [activeWarBetween, warMatchesPair, hbeq] using hw
    have h0 : countActiveBetween st.wars srcId tgtId = 0 :=
      countActive_eq_zero_of_find?_none _ _ _ hnone
    have hzero : countActiveBetween st.wars a b = 0 := by
      rcases hpair with ⟨ha, hb⟩ | ⟨ha, hb⟩
      · rw [← ha, ← hb]; exact h0
      · rw [← ha, ← hb, countActiveBetween_symm]; exact h0
    simp [hw, hzero]
  · rw [Bool.not_eq_true] at hw
    simp only [hw, Bool.false_eq_true, if_false]
    have := h a b
    omega

/-- The declare-war route preserves the pair invariant: every failure
branch leaves the wars table unchanged, and the creating branch runs only
after the duplicate query came back empty. -/
theorem declareWarRoute_preserves (st : GameState) (player : Player)
    (tgtId newWarId : Nat) (now : ℝ) (h : warsInvariant st.wars) :
    warsInvariant (declareWarRoute st player tgtId newWarId now).2.wars := by
  unfold declareWarRoute
  split
  · exact h
  · split
    · exact h
    · split
      · exact h
      · split
        · exact h
        · split
          · exact h
          · split
            · exact h
            · split
              · exact h
              · next hdup =>
                have hnone : st.wars.find?
                    (fun w => activeWarBetween w _ _) = none :=
                  Option.not_isSome_iff_eq_none.mp hdup
                split
                · split
                  · exact h
                  · exact declareWarCreate_preserves _ _ _ _ _ _ h hnone
                · exact declareWarCreate_preserves _ _ _ _ _ _ h hnone

/-- The end-war route preserves the pair invariant: it only turns the
ended war's status away from `active`, which can only decrease any
pair's active-war count. -/
theorem endWarRoute_preserves (st : GameState) (playerId warId : Nat) (now : ℝ)
    (h : warsInvariant st.wars) :
    warsInvariant (endWarRoute st playerId warId now).2.wars := by
  unfold endWarRoute
  split
  · exact h
  · split
    · exact h
    · split
      · exact h
      · intro a b
        refine le_trans (countActive_map_le _ a b ?_ st.wars) (h a b)
        intro w hw
        by_cases hid : (w.id == warId) = true
        · simp only [hid, if_true, activeWarBetween, Bool.and_eq_true] at hw
          exact absurd hw.2 (by decide)
        · rw [Bool.not_eq_true] at hid
          simpa [hid] using hw

/-- C4: at every reachable state at most one `active` war exists per
unordered country pair, and whenever the earlier target checks pass but
an active war already links the pair in either direction, the declare-war
route fails with Conflict and the state is unchanged. -/
theorem unique_active_war_per_pair :
    (∀ st : GameState, Reachable st → warsInvariant st.wars) ∧
    (∀ (st : GameState) (player : Player) (tgtId newWarId : Nat) (now : ℝ)
       (srcId : Nat) (srcC tgtC : Country),
       player.country_id = some srcId →
       Country.findByPk st.countries srcId = some srcC →
       srcC.owner_id = some player.id →
       Country.findByPk st.countries tgtId = some tgtC →
       tgtC.is_claimed = true →
       srcC.id ≠ tgtC.id →
       (st.wars.find? (fun w => activeWarBetween w srcC.id tgtC.id)).isSome = true →
       declareWarRoute st player tgtId newWarId now = (DeclareWarResult.conflict, st)) := by
  constructor
  · intro st hreach
    induction hreach with
    | init st h0 =>
      intro a b
      rw [h0]
      simp [countActiveBetween]
    | declare st player tgtId newWarId now _ ih =>
      exact declareWarRoute_preserves _ _ _ _ _ ih
    | endw st playerId warId now _ ih =>
      exact endWarRoute_preserves _ _ _ _ ih
    | warsPreserved st st' _ heq ih =>
      intro a b
      rw [heq]
      exact ih a b
  · intro st player tgtId newWarId now srcId srcC tgtC h1 h2 h3 h4 h5 h6 h7
    simp [declareWarRoute, h1, h2, h3, h4, h5, h6, h7]

/-- Witness for C4: the empty state satisfies the invariant, and in
`stWar` (war 1 already active between countries 0 and 1) a second
declaration by player 1 against country 1 returns Conflict unchanged. -/
theorem unique_active_war_per_pair_witness :
    countActiveBetween stEmpty.wars 0 1 ≤ 1 ∧
    declareWarRoute stWar plEx 1 5 400000 = (DeclareWarResult.conflict, stWar) :=
  ⟨unique_active_war_per_pair.1 stEmpty (Reachable.init stEmpty rfl) 0 1,
   unique_active_war_per_pair.2 stWar plEx 1 5 400000 0 cEx0 cEx1
     rfl rfl rfl rfl rfl (by decide) rfl⟩
